import Mathlib

/-!
Verification development for the visitor-tracking client script
(src/tracking.js).  The file embeds the script's pure computational
kernel in Lean: detectors over the user-agent string, the canvas hash,
the fingerprint composer, the page classifier, the delegated cart-click
watcher, and the reporter's fetch-promise chain.  JavaScript strings are
modelled as Lean strings (all inputs of interest are ASCII, so one
JavaScript UTF-16 code unit is one Lean character, and charCodeAt is
Char.toNat); JavaScript 32-bit integer coercion is explicit arithmetic
modulo 2^32; JavaScript numbers that appear here are rationals (every
value the script meets is an integer or a short terminating decimal).
All definitions are executable so that theorems can be checked on
concrete inputs.
-/

/-! ### Generic JavaScript string primitives (List Char based) -/

/-- Characters matched by the JavaScript regex class backslash-s
(whitespace).  User agents only ever contain plain spaces; the other
ASCII whitespace forms are included for completeness. -/
def isJsSpace (c : Char) : Bool :=
  c == ' ' || c == '\t' || c == '\n' || c == '\r' || c == Char.ofNat 11 || c == Char.ofNat 12

/-- Case-sensitive prefix match: if pat is a prefix of s, return the rest. -/
def dropCS : List Char → List Char → Option (List Char)
  | [], s => some s
  | _ :: _, [] => none
  | p :: ps, c :: cs => if p == c then dropCS ps cs else none

/-- Case-insensitive prefix match (ASCII folding, as the /i regex flag):
if pat matches a prefix of s up to case, return the rest. -/
def dropCI : List Char → List Char → Option (List Char)
  | [], s => some s
  | _ :: _, [] => none
  | p :: ps, c :: cs => if p.toLower == c.toLower then dropCI ps cs else none

/-- Case-insensitive prefix match that also returns the matched original
characters (regexes capture the text as it appears in the subject). -/
def dropCIK : List Char → List Char → Option (List Char × List Char)
  | [], s => some ([], s)
  | _ :: _, [] => none
  | p :: ps, c :: cs =>
    if p.toLower == c.toLower then
      match dropCIK ps cs with
      | some pr => some (c :: pr.1, pr.2)
      | none => none
    else none

/-- Case-sensitive substring containment, i.e. a plain /pat/.test(s). -/
def listContainsCS (pat : List Char) : List Char → Bool
  | [] => pat.isEmpty
  | c :: cs => (dropCS pat (c :: cs)).isSome || listContainsCS pat cs

/-- Case-insensitive substring containment, i.e. /pat/i.test(s). -/
def listContainsCI (pat : List Char) : List Char → Bool
  | [] => pat.isEmpty
  | c :: cs => (dropCI pat (c :: cs)).isSome || listContainsCI pat cs

def containsCS (s pat : String) : Bool := listContainsCS pat.data s.data

def containsCI (s pat : String) : Bool := listContainsCI pat.data s.data

/-- String.prototype.includes (case-sensitive substring test). -/
def jsIncludes (s pat : String) : Bool := containsCS s pat

/-- String.prototype.startsWith. -/
def jsStartsWith (s pat : String) : Bool := pat.data.isPrefixOf s.data

/-- String.prototype.toLowerCase (ASCII; the inputs here are ASCII). -/
def jsToLower (s : String) : String := String.mk (s.data.map Char.toLower)

/-- String.prototype.trim. -/
def jsTrimL (l : List Char) : List Char :=
  ((l.dropWhile isJsSpace).reverse.dropWhile isJsSpace).reverse

/-- Greedy digit run: the regex atom backslash-d+ (with its remainder). -/
def takeDigits : List Char → List Char × List Char
  | [] => ([], [])
  | c :: cs =>
    if c.isDigit then (c :: (takeDigits cs).1, (takeDigits cs).2)
    else ([], c :: cs)

/-! ### The shared version-number regex shape

Every version-extraction regex in the script has the form
/token(digits(.digits)?)/i for some literal token (or an alternation of
two literal tokens).  The scanner below is the leftmost-match semantics
of such a regex: at each position, each token alternative is tried in
order, and the position only matches when the token is followed by at
least one digit (the regex requires backslash-d+). -/

/-- Capture of (backslash-d+(backslash-.backslash-d+)?) at the head of s. -/
def majorMinorAt (s : List Char) : Option (List Char) :=
  match takeDigits s with
  | ([], _) => none
  | (ds, rest) =>
    match rest with
    | '.' :: r2 =>
      match takeDigits r2 with
      | ([], _) => some ds
      | (ds2, _) => some (ds ++ '.' :: ds2)
    | _ => some ds

/-- Try each token alternative, in order, at the current position. -/
def tryTokensVer : List (List Char) → List Char → Option (List Char)
  | [], _ => none
  | t :: ts, s =>
    match dropCI t s with
    | some rest =>
      match majorMinorAt rest with
      | some v => some v
      | none => tryTokensVer ts s
    | none => tryTokensVer ts s

/-- Scan left to right for the first position where some token matches
and is followed by a version number. -/
def scanVer (toks : List (List Char)) : List Char → Option (List Char)
  | [] => none
  | c :: cs =>
    match tryTokensVer toks (c :: cs) with
    | some v => some v
    | none => scanVer toks cs

/-- ua.match(/tok(d+(.d+)?)/i) ? match[1] : "" for the given token
alternatives. -/
def verAfter (toks : List String) (ua : String) : String :=
  match scanVer (toks.map String.data) ua.data with
  | some v => String.mk v
  | none => ""

/-- Generic leftmost scan with a position matcher. -/
def scanOpt (f : List Char → Option (List Char)) : List Char → Option (List Char)
  | [] => none
  | c :: cs =>
    match f (c :: cs) with
    | some v => some v
    | none => scanOpt f cs

/-! ### Canvas fingerprint hash (src/tracking.js lines 353-393 and 951-1042)

The rendered surface is serialized by canvas.toDataURL(); the resulting
encoded pixel string is the input of the hash.  The rendering itself is
a browser capability; an invocation's outcome is modelled explicitly:
either a data URL string, a thrown exception carrying a message
(blocked canvas / security error), or a missing 2d context. -/

/-- JavaScript ToInt32: wrap an exact integer into [-2^31, 2^31). -/
def toInt32 (n : Int) : Int := (n + 2147483648) % 4294967296 - 2147483648

/-- One step of the loop body
hash = (hash << 5) - hash + charCode; hash = hash & hash.
The shift coerces to 32 bits, the subtraction and addition are exact
double arithmetic (the magnitudes stay far below 2^53), and the final
self-AND coerces the result back to 32 bits. -/
def jsHashStep (h : Int) (c : Nat) : Int := toInt32 (toInt32 (h * 32) - h + c)

/-- The whole hashing loop over a character list, starting from 0. -/
def jsHashFold (l : List Char) : Int := l.foldl (fun h c => jsHashStep h c.toNat) 0

/-- Digit characters for Number.prototype.toString(36): 0-9 then a-z. -/
def digitChar36 (n : Nat) : Char :=
  if n < 10 then Char.ofNat (48 + n) else Char.ofNat (87 + n)

/-- Base-36 digits of n, most significant first.  Structural fuel
recursion so that the kernel can evaluate it; fuel 8 covers every
n < 36^8, far above the 32-bit values produced by the hash. -/
def toBase36Go : Nat → Nat → List Char
  | 0, _ => []
  | fuel + 1, n =>
    if n < 36 then [digitChar36 n]
    else toBase36Go fuel (n / 36) ++ [digitChar36 (n % 36)]

/-- Number.prototype.toString(36) for the natural numbers produced by
Math.abs on a 32-bit value. -/
def toBase36 (n : Nat) : String := String.mk (toBase36Go 8 n)

/-- Clamp a possibly negative JavaScript index into [0, len], as
String.prototype.substring does. -/
def clampIdx (len : Nat) (a : Int) : Nat :=
  if a < 0 then 0 else min a.toNat len

/-- String.prototype.substring(a, b): clamp both indices and take the
slice between the smaller and the larger. -/
def jsSubstring2 (s : String) (a b : Int) : String :=
  String.mk (((s.data.drop (min (clampIdx s.length a) (clampIdx s.length b))).take
    (max (clampIdx s.length a) (clampIdx s.length b) -
      min (clampIdx s.length a) (clampIdx s.length b))))

/-- String.prototype.substring(a) (one-argument form). -/
def jsSubstring1 (s : String) (a : Int) : String := jsSubstring2 s a s.length

/-- The sampled portion of the data URL in the enhanced fingerprint:
samples = [dataURL.substring(0,500), dataURL.substring(1000,1500),
dataURL.substring(dataURL.length-500)]; sampleStr = samples.join(""). -/
def enhancedSamples (d : String) : String :=
  jsSubstring2 d 0 500 ++ jsSubstring2 d 1000 1500 ++ jsSubstring1 d ((d.length : Int) - 500)

/-- The hash computed by getEnhancedCanvasFingerprint from the data URL:
fold the sampled characters, Math.abs, toString(36). -/
def getEnhancedCanvasFingerprintHash (d : String) : String :=
  toBase36 (jsHashFold (enhancedSamples d).data).natAbs

/-- Outcome of one attempt to render and serialize the canvas. -/
inductive CanvasOutcome where
  | ok (dataURL : String)
  | blocked (errMessage : String)
  | noContext
deriving DecidableEq

/-- getEnhancedCanvasFingerprint (lines 951-1042): a missing 2d context
returns the sentinel, an exception is caught and mapped to
"canvas-error-" + e.message.substring(0,10), and otherwise the hash of
the sampled data URL is returned.  The function is total: no exception
propagates. -/
def getEnhancedCanvasFingerprint : CanvasOutcome → String
  | .noContext => "canvas-not-supported"
  | .blocked m => "canvas-error-" ++ jsSubstring2 m 0 10
  | .ok d => getEnhancedCanvasFingerprintHash d

/-- str.replace(pat, "") with a string pattern removes only the first
occurrence (JavaScript semantics). -/
def removeFirst (pat : List Char) : List Char → List Char
  | [] => []
  | c :: cs =>
    match dropCS pat (c :: cs) with
    | some rest => rest
    | none => c :: removeFirst pat cs

/-- getCanvasFingerprint, the base variant (lines 353-393): strip the
"data:image/png;base64," header, hash the first min(50, length)
characters, Math.abs, toString(36); a missing context or an exception
yields a sentinel ("canvas-error" carries no exception detail here). -/
def getCanvasFingerprintBase : CanvasOutcome → String
  | .noContext => "canvas-not-supported"
  | .blocked _ => "canvas-error"
  | .ok d =>
    toBase36 (jsHashFold ((removeFirst ("data:image/png;base64,".data) d.data).take 50)).natAbs

/-- An invocation of the enhanced renderer together with the ambient
per-origin persisted state the specification calls the Identity Store.
The source of src/tracking.js contains no read or write of any durable
storage (no localStorage item, no cookie), so the result of an
invocation depends only on the canvas outcome; the store argument
records what a store, had one existed, would have held. -/
def rendererWithIdentityStore (_store : Option String) (o : CanvasOutcome) : String :=
  getEnhancedCanvasFingerprint o

/-- An invocation of the enhanced renderer together with the ambient
user-agent string.  The source never consults navigator.userAgent in
getEnhancedCanvasFingerprint or in its catch handler, so the result
depends only on the canvas outcome. -/
def rendererWithUserAgent (_ua : String) (o : CanvasOutcome) : String :=
  getEnhancedCanvasFingerprint o

/-! ### Operating system detector (src/tracking.js lines 685-719) -/

/-- The broad mobile-keyword pattern
/Android|webOS|iPhone|iPad|iPod|BlackBerry|IEMobile|Opera Mini/i. -/
def mobileRegexTest (ua : String) : Bool :=
  containsCI ua "Android" || containsCI ua "webOS" || containsCI ua "iPhone" ||
  containsCI ua "iPad" || containsCI ua "iPod" || containsCI ua "BlackBerry" ||
  containsCI ua "IEMobile" || containsCI ua "Opera Mini"

/-- /iPad|iPhone|iPod/.test(ua) (case-sensitive). -/
def isIOSUA (ua : String) : Bool :=
  containsCS ua "iPad" || containsCS ua "iPhone" || containsCS ua "iPod"

/-- The iOS guard /iPad|iPhone|iPod/.test(ua) && !window.MSStream. -/
def iosActive (ua : String) (msStream : Bool) : Bool := isIOSUA ua && !msStream

/-- Position matcher for /OS (d+[_d]*) like Mac OS X/i: the literal,
one or more digits, any further digits or underscores (greedy; the
class cannot eat the following space, so no backtracking arises), then
the literal tail. -/
def iosOSVerAt (s : List Char) : Option (List Char) :=
  match dropCI "OS ".data s with
  | none => none
  | some r1 =>
    match takeDigits r1 with
    | ([], _) => none
    | (ds, r2) =>
      match r2.span (fun c => c.isDigit || c == '_') with
      | (more, r3) =>
        match dropCI " like Mac OS X".data r3 with
        | some _ => some (ds ++ more)
        | none => none

/-- match(/OS (d+[_d]*) like Mac OS X/i) with match[1].replace(/_/g, "."). -/
def iosOSVersion (ua : String) : String :=
  match scanOpt iosOSVerAt ua.data with
  | some v => String.mk (v.map (fun c => if c == '_' then '.' else c))
  | none => ""

/-- Position matcher for /Mac OS X (d+[._d]*)/i. -/
def macOSVerAt (s : List Char) : Option (List Char) :=
  match dropCI "Mac OS X ".data s with
  | none => none
  | some r1 =>
    match takeDigits r1 with
    | ([], _) => none
    | (ds, r2) => some (ds ++ (r2.span (fun c => c.isDigit || c == '.' || c == '_')).1)

/-- match(/Mac OS X (d+[._d]*)/i) with match[1].replace(/_/g, "."). -/
def macOSVersion (ua : String) : String :=
  match scanOpt macOSVerAt ua.data with
  | some v => String.mk (v.map (fun c => if c == '_' then '.' else c))
  | none => ""

structure OSResult where
  name : String
  version : String
  mobile : Bool
deriving DecidableEq

/-- getOperatingSystem: ordered signature cascade Android, iOS, Windows,
MacOS, Linux; the Android test is /android/i, the others are
case-sensitive; each match extracts its version with the per-OS regex. -/
def getOperatingSystem (ua : String) (msStream : Bool) : OSResult :=
  if containsCI ua "android" then
    ⟨"Android", verAfter ["Android "] ua, mobileRegexTest ua⟩
  else if iosActive ua msStream then
    ⟨"iOS", iosOSVersion ua, mobileRegexTest ua⟩
  else if containsCS ua "Windows NT" then
    ⟨"Windows", verAfter ["Windows NT "] ua, mobileRegexTest ua⟩
  else if containsCS ua "Mac OS X" then
    ⟨"MacOS", macOSVersion ua, mobileRegexTest ua⟩
  else if containsCS ua "Linux" then
    ⟨"Linux", "", mobileRegexTest ua⟩
  else
    ⟨"Unknown", "", mobileRegexTest ua⟩

/-! ### Browser detector (src/tracking.js lines 785-866) -/

/-- First detection of the wrapping iOS application from the
CriOS/FxiOS/EdgiOS/OPiOS tokens (all tested with /i). -/
def actualBrowserOf (ua : String) : String :=
  if containsCI ua "CriOS" then "Chrome"
  else if containsCI ua "FxiOS" then "Firefox"
  else if containsCI ua "EdgiOS" then "Edge"
  else if containsCI ua "OPiOS" then "Opera"
  else "Unknown"

/-- /Chromium|Edge|Edg|OPR|Opera|brave/i, the negative exclusion list of
the Chrome branch. -/
def chromeExcl (ua : String) : Bool :=
  containsCI ua "Chromium" || containsCI ua "Edge" || containsCI ua "Edg" ||
  containsCI ua "OPR" || containsCI ua "Opera" || containsCI ua "brave"

def chromeUA (ua : String) : Bool := containsCS ua "Chrome" && !chromeExcl ua

def firefoxUA (ua : String) : Bool := containsCS ua "Firefox" && !containsCI ua "Seamonkey"

def edgeUA (ua : String) : Bool := containsCS ua "Edg"

/-- /Safari/ with the exclusion /Chrome|Chromium|Edge|Edg|OPR|Opera/i. -/
def safariUA (ua : String) : Bool :=
  containsCS ua "Safari" &&
  !(containsCI ua "Chrome" || containsCI ua "Chromium" || containsCI ua "Edge" ||
    containsCI ua "Edg" || containsCI ua "OPR" || containsCI ua "Opera")

def ieUA (ua : String) : Bool := containsCS ua "MSIE" || containsCS ua "Trident"

def operaUA (ua : String) : Bool := containsCS ua "OPR" || containsCS ua "Opera"

structure BrowserResult where
  name : String
  version : String
  actualBrowser : String
deriving DecidableEq

/-- getBrowserInfo: iOS handling first (all iOS browsers share WebKit;
the wrapper tokens, tested case-sensitively inside the branch, pick the
reported name), then the ordered non-iOS cascade Chrome, Firefox, Edge,
Safari, Internet Explorer, Opera with the negative exclusions above;
each branch extracts its version with the per-browser regex. -/
def getBrowserInfo (ua : String) (msStream : Bool) : BrowserResult :=
  if iosActive ua msStream then
    if containsCS ua "CriOS" then ⟨"Chrome", verAfter ["CriOS/"] ua, actualBrowserOf ua⟩
    else if containsCS ua "FxiOS" then ⟨"Firefox", verAfter ["FxiOS/"] ua, actualBrowserOf ua⟩
    else if containsCS ua "EdgiOS" then ⟨"Edge", verAfter ["EdgiOS/"] ua, actualBrowserOf ua⟩
    else ⟨"Safari", verAfter ["Version/"] ua, actualBrowserOf ua⟩
  else if chromeUA ua then ⟨"Chrome", verAfter ["Chrome/"] ua, actualBrowserOf ua⟩
  else if firefoxUA ua then ⟨"Firefox", verAfter ["Firefox/"] ua, actualBrowserOf ua⟩
  else if edgeUA ua then ⟨"Edge", verAfter ["Edg/"] ua, actualBrowserOf ua⟩
  else if safariUA ua then ⟨"Safari", verAfter ["Version/"] ua, actualBrowserOf ua⟩
  else if ieUA ua then ⟨"Internet Explorer", verAfter ["MSIE ", "rv:"] ua, actualBrowserOf ua⟩
  else if operaUA ua then ⟨"Opera", verAfter ["OPR/", "Opera/"] ua, actualBrowserOf ua⟩
  else ⟨"Unknown", "", actualBrowserOf ua⟩

/-! ### Device model detector (src/tracking.js lines 722-782)

Each Android vendor regex is anchored at a semicolon:
/;s+(VENDOR...)/i.  The position matchers below are leftmost-match
semantics of those regexes, scanned over the user agent with scanOpt. -/

/-- Characters allowed by the class [^;)]. -/
def notSemiParen (c : Char) : Bool := !(c == ';' || c == ')')

/-- The trailing part s+[^;)]+ of the Pixel / Mi / Redmi patterns.
A space is itself in [^;)], so with backtracking the two greedy atoms
together consume exactly the maximal run of non-semicolon non-paren
characters, and the whole tail matches exactly when that run starts
with whitespace and has at least two characters (one for s+, one for
[^;)]+). -/
def vendorSpTail (m : List Char) (r : List Char) : Option (List Char) :=
  match (r.span notSemiParen).1 with
  | c1 :: c2 :: rest => if isJsSpace c1 then some (m ++ c1 :: c2 :: rest) else none
  | _ => none

/-- /;s+(SM-[A-Z0-9]+)/i at one position (Samsung). -/
def samsungAt (s : List Char) : Option (List Char) :=
  match s with
  | ';' :: r1 =>
    match r1.span isJsSpace with
    | ([], _) => none
    | (_, r2) =>
      match dropCIK "SM-".data r2 with
      | none => none
      | some (m, r3) =>
        match (r3.span Char.isAlphanum).1 with
        | [] => none
        | al => some (m ++ al)
  | _ => none

/-- /;s+(Pixels+[^;)]+)/i at one position (Google Pixel). -/
def pixelAt (s : List Char) : Option (List Char) :=
  match s with
  | ';' :: r1 =>
    match r1.span isJsSpace with
    | ([], _) => none
    | (_, r2) =>
      match dropCIK "Pixel".data r2 with
      | none => none
      | some (m, r3) => vendorSpTail m r3
  | _ => none

/-- /;s+(Mis+[^;)]+|Redmis+[^;)]+)/i at one position: both alternatives
are tried at the same semicolon before the scan advances. -/
def miRedmiAt (s : List Char) : Option (List Char) :=
  match s with
  | ';' :: r1 =>
    match r1.span isJsSpace with
    | ([], _) => none
    | (_, r2) =>
      match dropCIK "Mi".data r2 with
      | some (m, r3) =>
        match vendorSpTail m r3 with
        | some v => some v
        | none =>
          match dropCIK "Redmi".data r2 with
          | some (m2, r4) => vendorSpTail m2 r4
          | none => none
      | none =>
        match dropCIK "Redmi".data r2 with
        | some (m2, r4) => vendorSpTail m2 r4
        | none => none
  | _ => none

/-- /;s+(OnePlus[^;)]+)/i at one position. -/
def onePlusAt (s : List Char) : Option (List Char) :=
  match s with
  | ';' :: r1 =>
    match r1.span isJsSpace with
    | ([], _) => none
    | (_, r2) =>
      match dropCIK "OnePlus".data r2 with
      | none => none
      | some (m, r3) =>
        match (r3.span notSemiParen).1 with
        | [] => none
        | run => some (m ++ run)
  | _ => none

/-- Does (?:Build|[^)]+closing-paren) match a prefix of b?  Either the
literal "Build" (case-insensitive) is a prefix, or the first closing
paren of b exists and sits at index at least one. -/
def trailOK (b : List Char) : Bool :=
  (dropCI "Build".data b).isSome ||
  (match b with
   | c :: rest => !(c == ')') && rest.contains ')'
   | [] => false)

/-- Backtracking search for the capture end in the generic Android
pattern: try the largest end first (the greedy [^;]+), going down to 2
(at least one whitespace and one captured character). -/
def genFindE (t : List Char) : Nat → Option Nat
  | 0 => none
  | 1 => none
  | e + 2 =>
    if trailOK (t.drop (e + 2)) then some (e + 2) else genFindE t (e + 1)

/-- The tail s+([^;]+)(?:Build|[^)]+closing-paren) of the generic
Android pattern, applied after the semicolon.  Whitespace is also a
non-semicolon character, so the candidate capture ends are the
positions within the maximal non-semicolon run; the regex engine
prefers the longest end, and splits whitespace-maximal first, which
makes the capture run from min(w, e-1) to e where w is the maximal
whitespace run and e the chosen end. -/
def generalTail (t : List Char) : Option (List Char) :=
  match t with
  | c :: _ =>
    if isJsSpace c then
      match genFindE t (t.span (fun c => !(c == ';'))).1.length with
      | some e => some ((t.take e).drop (min (t.span isJsSpace).1.length (e - 1)))
      | none => none
    else none
  | [] => none

/-- /Android[s/][d.]+;s+([^;]+)(?:Build|[^)]+closing-paren)/i at one
position. -/
def generalAndroidAt (s : List Char) : Option (List Char) :=
  match dropCI "Android".data s with
  | none => none
  | some r1 =>
    match r1 with
    | c :: r2 =>
      if isJsSpace c || c == '/' then
        match r2.span (fun c => c.isDigit || c == '.') with
        | ([], _) => none
        | (_, r3) =>
          match r3 with
          | ';' :: r4 => generalTail r4
          | _ => none
      else none
    | [] => none

/-- match[1].trim().replace(/sBuild.*／i,"") style cleanup: cut from the
first whitespace that is followed by the given token (case-insensitive)
to the end of the string. -/
def cutSpTok (tok : List Char) : List Char → List Char
  | [] => []
  | c :: cs =>
    if isJsSpace c && (dropCI tok cs).isSome then []
    else c :: cutSpTok tok cs

/-- .replace(/[;(].*／, ""): cut from the first semicolon or opening
paren to the end. -/
def cutAtSemiParen : List Char → List Char
  | [] => []
  | c :: cs => if c == ';' || c == '(' then [] else c :: cutAtSemiParen cs

/-- The cleanup chain of the generic Android branch:
.trim().replace(/sBuild.*／i, "").replace(/sLMY.*／i, "").replace(/[;(].*／, ""). -/
def cleanupModel (m : List Char) : String :=
  String.mk (cutAtSemiParen (cutSpTok "LMY".data (cutSpTok "Build".data (jsTrimL m))))

/-- Position matcher for /OS (d+[._]d+[._]?d*) like Mac OS X/i used in
the iOS device branch.  The optional second separator backtracks: if
consuming it does not lead to the literal tail, it is left unconsumed. -/
def iosModelVerAt (s : List Char) : Option (List Char) :=
  match dropCI "OS ".data s with
  | none => none
  | some r1 =>
    match takeDigits r1 with
    | ([], _) => none
    | (ds1, r2) =>
      match r2 with
      | c1 :: r3 =>
        if c1 == '.' || c1 == '_' then
          match takeDigits r3 with
          | ([], _) => none
          | (ds2, r4) =>
            match r4 with
            | c2 :: r5 =>
              if c2 == '.' || c2 == '_' then
                match takeDigits r5 with
                | (ds3, r6) =>
                  match dropCI " like Mac OS X".data r6 with
                  | some _ => some (ds1 ++ c1 :: ds2 ++ c2 :: ds3)
                  | none =>
                    match dropCI " like Mac OS X".data r4 with
                    | some _ => some (ds1 ++ c1 :: ds2)
                    | none => none
              else
                match dropCI " like Mac OS X".data r4 with
                | some _ => some (ds1 ++ c1 :: ds2)
                | none => none
            | [] =>
              match dropCI " like Mac OS X".data r4 with
              | some _ => some (ds1 ++ c1 :: ds2)
              | none => none
        else none
      | [] => none

/-- The Android part of getDeviceModel: the vendor regexes in source
order (Samsung, Pixel, Xiaomi/Redmi, OnePlus), then the generic
Build-tag fallback with its cleanup. -/
def androidDeviceModel (u : List Char) : Option String :=
  match scanOpt samsungAt u with
  | some m => some (String.mk (jsTrimL m))
  | none =>
  match scanOpt pixelAt u with
  | some m => some (String.mk (jsTrimL m))
  | none =>
  match scanOpt miRedmiAt u with
  | some m => some (String.mk (jsTrimL m))
  | none =>
  match scanOpt onePlusAt u with
  | some m => some (String.mk (jsTrimL m))
  | none =>
  match scanOpt generalAndroidAt u with
  | some m => some (cleanupModel m)
  | none => none

/-- getDeviceModel (lines 722-782).  If the user agent is Android but no
Android pattern matches, control falls out of the Android block and
continues with the iOS, desktop-platform and unknown cases, exactly as
in the source. -/
def getDeviceModel (ua : String) (platform : Option String) : String :=
  match (if containsCI ua "android" then androidDeviceModel ua.data else none) with
  | some m => m
  | none =>
    if containsCS ua "iPad" || containsCS ua "iPhone" || containsCS ua "iPod" then
      let device :=
        if containsCS ua "iPad" then "iPad"
        else if containsCS ua "iPod" then "iPod"
        else if containsCS ua "iPhone" then "iPhone"
        else "Unknown iOS Device"
      let version :=
        match scanOpt iosModelVerAt ua.data with
        | some v => String.mk (v.map (fun c => if c == '_' then '.' else c))
        | none => ""
      if version == "" then device
      else device ++ " (iOS " ++ version ++ ")"
    else if containsCI ua "Windows NT" || containsCI ua "Macintosh" || containsCI ua "Linux" then
      match platform with
      | some p => if p == "" then "Desktop Device" else p
      | none => "Desktop Device"
    else "Unknown Device"

/-! ### Hardware collector and the fingerprint composer
(src/tracking.js lines 884-891, 396-406, 1045-1068) -/

/-- A JavaScript value that is either a number or the string "Unknown"
(the result of navigator.x || "Unknown"). -/
inductive HWVal where
  | num (q : ℚ)
  | unknownV
deriving DecidableEq

/-- v || "Unknown": an absent API and a reported 0 are both falsy. -/
def jsOrUnknown : Option ℚ → HWVal
  | none => HWVal.unknownV
  | some q => if q.num == 0 then HWVal.unknownV else HWVal.num q

/-- Decimal digit character. -/
def digitCh (m : Nat) : Char := Char.ofNat (48 + m % 10)

/-- Fractional decimal digits of r/d by long division (fuel-bounded;
every number the script meets has a short terminating expansion). -/
def fracDigitsGo : Nat → Nat → Nat → List Char
  | 0, _, _ => []
  | _ + 1, 0, _ => []
  | f + 1, r, d => digitCh (10 * r / d) :: fracDigitsGo f (10 * r % d) d

/-- JavaScript number-to-string coercion for the rationals that occur
here (integers and short terminating decimals). -/
def jsNumToString (q : ℚ) : String :=
  (if q.num < 0 then "-" else "") ++
  toString (q.num.natAbs / q.den) ++
  (if q.num.natAbs % q.den == 0 then ""
   else "." ++ String.mk (fracDigitsGo 20 (q.num.natAbs % q.den) q.den))

def hwValStr : HWVal → String
  | .unknownV => "Unknown"
  | .num q => jsNumToString q

/-- The navigator fields getHardwareInfo reads; absent APIs are none. -/
structure NavigatorEnv where
  hardwareConcurrency : Option ℚ
  deviceMemory : Option ℚ
  maxTouchPoints : Option ℚ
  platform : Option String

structure HardwareInfo where
  cores : HWVal
  memory : HWVal
  maxTouchPoints : ℚ
  platform : String
deriving DecidableEq

/-- getHardwareInfo (lines 884-891): each field defaults through ||. -/
def getHardwareInfo (nav : NavigatorEnv) : HardwareInfo where
  cores := jsOrUnknown nav.hardwareConcurrency
  memory := jsOrUnknown nav.deviceMemory
  maxTouchPoints :=
    match nav.maxTouchPoints with
    | none => 0
    | some q => if q.num == 0 then 0 else q
  platform :=
    match nav.platform with
    | none => "Unknown"
    | some p => if p == "" then "Unknown" else p

structure OSInfo where
  name : String
  version : String
  mobile : Bool
deriving DecidableEq

structure BrowserSignal where
  name : String
  version : String
  actualBrowser : String
  userAgent : String
  language : String
  cookieEnabled : Bool
deriving DecidableEq

structure ScreenInfo where
  width : Nat
  height : Nat
  availWidth : Nat
  availHeight : Nat
  colorDepth : Nat
  pixelScale : ℚ
  orientation : String
deriving DecidableEq

structure IdentifierInfo where
  timezone : String
  timezoneOffset : Int
  canvasFingerprint : String
  webGLRenderer : String
deriving DecidableEq

/-- The VisitorSignal bundle as assembled by collectVisitorData (the
fields the composer reads; pixelScale models screen.pixelRatio). -/
structure VisitorData where
  os : OSInfo
  browser : BrowserSignal
  deviceModel : String
  screen : ScreenInfo
  hardware : HardwareInfo
  identifiers : IdentifierInfo
deriving DecidableEq

/-- Array.prototype.join("|"). -/
def joinPipe : List String → String
  | [] => ""
  | [s] => s
  | s :: r :: rest => s ++ "|" ++ joinPipe (r :: rest)

/-- data.browser.version.split(".")[0] || "unknown": the characters
before the first dot, with empty falling back to "unknown". -/
def majorVersion (v : String) : String :=
  match v.data.takeWhile (fun c => !(c == '.')) with
  | [] => "unknown"
  | m => String.mk m

/-- The engine-disambiguated browser identifier of the extended
composer: on iOS, when the wrapper application was recognised, report
"App(WebKit)". -/
def browserIdent (d : VisitorData) : String :=
  if d.os.name == "iOS" && !(d.browser.actualBrowser == "Unknown") then
    d.browser.actualBrowser ++ "(WebKit)"
  else d.browser.name

/-- The "{cores}cores-{memory}GB" template segment. -/
def hardwareSeg (hw : HardwareInfo) : String :=
  hwValStr hw.cores ++ "cores-" ++ hwValStr hw.memory ++ "GB"

/-- (data.screen.pixelRatio || 1). -/
def jsOr1 (q : ℚ) : ℚ := if q.num == 0 then 1 else q

/-- Render n thousandths as "i.ddd". -/
def fixed3Render (n : Nat) : String :=
  toString (n / 1000) ++ "." ++ String.mk [digitCh (n / 100), digitCh (n / 10), digitCh n]

/-- Number.prototype.toFixed(3): round to the nearest thousandth,
half away upward (q here is a positive device pixel ratio), then render
with exactly three fractional digits.  floor(1000q + 1/2) is computed
exactly on the rational's numerator and denominator. -/
def toFixed3 (q : ℚ) : String :=
  fixed3Render (Int.fdiv (2000 * q.num + q.den) (2 * q.den)).toNat

/-- The GPU segment: webGLRenderer ? webGLRenderer.substring(0, 20)
: "unknown-gpu" (the empty string is the only falsy string). -/
def gpuSeg (s : String) : String :=
  if s == "" then "unknown-gpu" else String.mk (s.data.take 20)

/-- The nine segments of the extended formatVisitorString
(lines 1045-1068), in source order. -/
def visitorSegments (d : VisitorData) : List String :=
  [d.os.name,
   browserIdent d,
   majorVersion d.browser.version,
   toString d.screen.width ++ "x" ++ toString d.screen.height,
   hardwareSeg d.hardware,
   d.identifiers.canvasFingerprint,
   d.deviceModel,
   toFixed3 (jsOr1 d.screen.pixelScale),
   gpuSeg d.identifiers.webGLRenderer]

/-- The extended composer: the nine segments joined with "|". -/
def formatVisitorString (d : VisitorData) : String := joinPipe (visitorSegments d)

/-- The six segments of the base-variant formatVisitorString
(lines 396-406), in source order. -/
def visitorSegmentsBase (d : VisitorData) : List String :=
  [d.os.name,
   d.browser.name,
   majorVersion d.browser.version,
   toString d.screen.width ++ "x" ++ toString d.screen.height,
   hardwareSeg d.hardware,
   d.identifiers.canvasFingerprint]

/-- The base-variant composer: six segments joined with "|". -/
def formatVisitorStringBase (d : VisitorData) : String := joinPipe (visitorSegmentsBase d)

/-! ### Page classifier (src/tracking.js lines 614-649) -/

def productPred (path : String) (hasProductDetail hasProductId : Bool) : Bool :=
  jsIncludes path "/products/" || jsIncludes path "/product/" || jsIncludes path "/p/" ||
  hasProductDetail || hasProductId

def checkoutPred (path : String) : Bool :=
  path == "/checkout" || jsStartsWith path "/checkouts" || jsIncludes path "/checkout"

def cartPred (path : String) : Bool := path == "/cart" || jsIncludes path "/cart"

def homePred (path : String) : Bool := path == "/" || path == "/index"

def collectionPred (path : String) : Bool :=
  jsIncludes path "/collections" || jsIncludes path "/search"

/-- determinePageType (extended variant): the lower-cased pathname runs
through the ordered cascade product, checkout, cart, home,
collection/search, other; the two DOM probes
(querySelector(".product-detail"), querySelector("[data-product-id]"))
are the boolean arguments. -/
def determinePageType (pathname : String) (hasProductDetail hasProductId : Bool) : String :=
  if productPred (jsToLower pathname) hasProductDetail hasProductId then "product"
  else if checkoutPred (jsToLower pathname) then "checkout"
  else if cartPred (jsToLower pathname) then "cart"
  else if homePred (jsToLower pathname) then "home"
  else if collectionPred (jsToLower pathname) then "collection_or_search"
  else "other"

/-! ### Interaction watcher (src/tracking.js lines 36-75, 1119-1128)

A DOM element is modelled by the attributes the cart-button selector
list inspects, plus the action attributes of its form ancestors (the
two descendant selectors "form[action*=/cart/add] button/input" match
an element through such an ancestor).  A click event is modelled by the
chain of elements from the event target upward, strictly below
document.body, which is exactly the range of the walk-up loop. -/

structure Elem where
  tag : String
  nameAttr : Option String
  classes : List String
  dataAction : Option String
  typeAttr : Option String
  formActions : List String
deriving DecidableEq

/-- element.matches(combinedSelector) for the ten cart-button selectors
of setupCartTracking, in source order. -/
def matchesCartSelector (e : Elem) : Bool :=
  (e.tag == "button" && e.nameAttr == some "add") ||
  (e.tag == "button" && e.classes.contains "add-to-cart") ||
  (e.tag == "button" && e.classes.contains "product-form--add-to-cart") ||
  (e.tag == "button" && e.classes.contains "product-form__cart-submit") ||
  (e.tag == "button" && e.classes.contains "ProductForm__AddToCart") ||
  (e.tag == "button" && e.dataAction == some "add-to-cart") ||
  (e.tag == "input" && e.nameAttr == some "add") ||
  (e.tag == "input" && e.classes.contains "add-to-cart") ||
  (e.tag == "button" && e.formActions.any (fun a => containsCS a "/cart/add")) ||
  (e.tag == "input" && e.typeAttr == some "submit" &&
    e.formActions.any (fun a => containsCS a "/cart/add"))

/-- The walk-up loop of the delegated click handler: true when the
target or any ancestor below document.body matches the selector list. -/
def clickPathMatches (path : List Elem) : Bool := path.any matchesCartSelector

/-- Page-lifetime tracker state: how many delegated click listeners
setupCartTracking has registered on document, and how many page-visit
reports have been sent. -/
structure TrackerState where
  clickListeners : Nat
  pageVisitReports : Nat
deriving DecidableEq

def initialTrackerState : TrackerState := ⟨0, 0⟩

/-- One run of visitorTracker.init(): it sends one page-visit report
and calls setupCartTracking, which registers a fresh arrow-function
listener with document.addEventListener("click", ...).  Each call
passes a new closure, so addEventListener never deduplicates: the
listener count grows by one on every init, including the re-entries the
visibilitychange handler performs (lines 1119-1128). -/
def initStep (s : TrackerState) : TrackerState :=
  ⟨s.clickListeners + 1, s.pageVisitReports + 1⟩

/-- Dispatching one click event: the DOM invokes every registered
listener once; each listener runs the walk-up loop and calls
trackAddToCart exactly when it finds a match, so the number of
add-to-cart reports fired by one click is listeners times the match
indicator. -/
def addToCartReportsOnClick (s : TrackerState) (path : List Elem) : Nat :=
  s.clickListeners * (if clickPathMatches path then 1 else 0)

/-- The payload assembled by trackAddToCart (lines 542-585). -/
structure CartPayload where
  page : String
  event : Option String
deriving DecidableEq

def trackAddToCartPayload : CartPayload := ⟨"product", some "add_to_cart"⟩

/-! ### Event reporter (src/tracking.js lines 1070-1116 and 542-585)

One invocation issues one fetch; the promise chain is
.then(check ok / parse json).then(log success).catch(log error).
The outcome of the network interaction is modelled explicitly. -/

inductive FetchOutcome where
  | networkError (msg : String)
  | httpResponse (ok : Bool) (jsonParses : Bool)
deriving DecidableEq

/-- Did the chain reach the catch handler? (network rejection, the
explicit throw on !response.ok, or a response.json() rejection). -/
def fetchFailed : FetchOutcome → Bool
  | .networkError _ => true
  | .httpResponse ok jsonParses => !ok || !jsonParses

/-- Observable trace of one reporter invocation. -/
structure ReporterTrace where
  postsSent : Nat
  loggedError : Bool
  loggedSuccess : Bool
  raisedToCaller : Bool
deriving DecidableEq

/-- The shared fetch-promise chain: exactly one POST; every failure is
absorbed by .catch (console.error), success is logged; nothing is
rethrown past the catch handler, so nothing reaches the caller. -/
def fetchChainTrace (o : FetchOutcome) : ReporterTrace :=
  match o with
  | .networkError _ => ⟨1, true, false, false⟩
  | .httpResponse false _ => ⟨1, true, false, false⟩
  | .httpResponse true false => ⟨1, true, false, false⟩
  | .httpResponse true true => ⟨1, false, true, false⟩

/-- sendToServer (lines 1070-1116): format, POST once, absorb failure. -/
def sendToServerTrace (o : FetchOutcome) : ReporterTrace := fetchChainTrace o

/-- trackAddToCart (lines 542-585): same chain, same failure handling. -/
def trackAddToCartTrace (o : FetchOutcome) : ReporterTrace := fetchChainTrace o

/-! ### Shape predicates and concrete data used by the theorems -/

/-- Every character of the list is a decimal digit. -/
def digitsOnly (l : List Char) : Prop := ∀ c ∈ l, c.isDigit = true

/-- The shape delivered by the version regexes d+(.d+)?: either no
match (empty string) or digits optionally followed by a dot and more
digits, i.e. at most major.minor. -/
def majorMinorShape (v : String) : Prop :=
  v = "" ∨ ∃ a b : List Char, a ≠ [] ∧ digitsOnly a ∧
    (v.data = a ∨ (b ≠ [] ∧ digitsOnly b ∧ v.data = a ++ '.' :: b))

/-- The reference Android user agent of the specification's end-to-end
scenario. -/
def androidRefUA : String :=
  "Mozilla/5.0 (Linux; Android 10; SM-G973F) AppleWebKit/537.36 (KHTML, like Gecko) Chrome/90.0.4430.91 Mobile Safari/537.36"

/-- A Chrome-for-iOS user agent (CriOS token). -/
def uaCriOSRef : String :=
  "Mozilla/5.0 (iPhone; CPU iPhone OS 14_4 like Mac OS X) AppleWebKit/605.1.15 (KHTML, like Gecko) CriOS/87.0.4280.77 Mobile/15E148 Safari/604.1"

/-- A desktop Opera user agent, which also carries the Chrome token. -/
def uaOperaRef : String :=
  "Mozilla/5.0 (Windows NT 10.0; Win64; x64) AppleWebKit/537.36 (KHTML, like Gecko) Chrome/91.0.4472.124 Safari/537.36 OPR/77.0.4054.203"

/-- A concrete VisitorSignal bundle (Android phone). -/
def exVisitorData : VisitorData :=
  ⟨⟨"Android", "10", true⟩,
   ⟨"Chrome", "90.0", "Unknown", androidRefUA, "en-US", true⟩,
   "SM-G973F",
   ⟨360, 800, 360, 800, 24, 2, "portrait-primary"⟩,
   getHardwareInfo ⟨some 8, some 4, some 5, some "Linux armv8l"⟩,
   ⟨"America/New_York", 300, "abc123", "Adreno (TM) 640 extra long renderer"⟩⟩

/-- A concrete VisitorSignal bundle (Chrome on iOS). -/
def exIOSVisitorData : VisitorData :=
  ⟨⟨"iOS", "14.4", true⟩,
   ⟨"Chrome", "87.0", "Chrome", uaCriOSRef, "en-US", true⟩,
   "iPhone (iOS 14.4)",
   ⟨390, 844, 390, 844, 24, 3, "portrait-primary"⟩,
   getHardwareInfo ⟨some 6, none, some 5, some "iPhone"⟩,
   ⟨"America/New_York", 300, "xyz9k", ""⟩⟩

/-- The click path of the duplicate-listener scenario: a span nested
inside a button with name="add", both below document.body. -/
def nestedAddClickPath : List Elem :=
  [⟨"span", none, [], none, none, []⟩,
   ⟨"button", some "add", [], none, none, []⟩]

/-- A click path with no cart-button ancestor. -/
def plainClickPath : List Elem :=
  [⟨"div", none, ["hero"], none, none, []⟩]

/-! ### Supporting lemmas -/

theorem strLen_append (a b : String) : (a ++ b).length = a.length + b.length := by
  show (a ++ b).data.length = a.data.length + b.data.length
  rw [String.data_append, List.length_append]

theorem toInt32_lb (n : Int) : -2147483648 ≤ toInt32 n := by
  unfold toInt32; omega

theorem toInt32_ub (n : Int) : toInt32 n < 2147483648 := by
  unfold toInt32; omega

theorem foldl_hash_bounds : ∀ (l : List Char) (h : Int),
    -2147483648 ≤ h → h < 2147483648 →
    -2147483648 ≤ l.foldl (fun h c => jsHashStep h c.toNat) h ∧
      l.foldl (fun h c => jsHashStep h c.toNat) h < 2147483648 := by
  intro l
  induction l with
  | nil => intro h h1 h2; exact ⟨h1, h2⟩
  | cons c cs ih =>
    intro h h1 h2
    simp only [List.foldl_cons]
    exact ih _ (toInt32_lb _) (toInt32_ub _)

theorem jsHashFold_natAbs_le (l : List Char) : (jsHashFold l).natAbs ≤ 2147483648 := by
  have := foldl_hash_bounds l 0 (by norm_num) (by norm_num)
  unfold jsHashFold
  omega

theorem toBase36Go_length : ∀ (fuel n k : Nat), 1 ≤ k → k ≤ fuel → n < 36 ^ k →
    (toBase36Go fuel n).length ≤ k := by
  intro fuel
  induction fuel with
  | zero => intro n k h1 h2 _; omega
  | succ f ih =>
    intro n k h1 h2 h3
    unfold toBase36Go
    by_cases hn : n < 36
    · simp only [hn, if_true, List.length_singleton]
      exact h1
    · simp only [hn, if_false, List.length_append, List.length_singleton]
      have hk : 2 ≤ k := by
        rcases Nat.lt_or_ge k 2 with hk' | hk'
        · exfalso
          have hk1 : k = 1 := by omega
          rw [hk1, pow_one] at h3
          omega
        · exact hk'
      have hdiv : n / 36 < 36 ^ (k - 1) := by
        rw [Nat.div_lt_iff_lt_mul (by norm_num : 0 < 36)]
        calc n < 36 ^ k := h3
        _ = 36 ^ (k - 1) * 36 := by
            conv_lhs => rw [show k = (k - 1) + 1 by omega]
            rw [pow_succ]
      have := ih (n / 36) (k - 1) (by omega) (by omega) hdiv
      omega

theorem toBase36_length_le (n : Nat) (h : n ≤ 2147483648) : (toBase36 n).length ≤ 6 := by
  show (toBase36Go 8 n).length ≤ 6
  exact toBase36Go_length 8 n 6 (by norm_num) (by norm_num) (by norm_num; omega)

theorem jsSubstring2_length_le (s : String) (a b : Int) :
    (jsSubstring2 s a b).length ≤
      max (clampIdx s.length a) (clampIdx s.length b) -
        min (clampIdx s.length a) (clampIdx s.length b) := by
  show (List.take _ _).length ≤ _
  simp [List.length_take]

theorem clampIdx_eq (len : Nat) (a : Int) : clampIdx len a = min a.toNat len := by
  unfold clampIdx
  split
  · omega
  · rfl

theorem enhancedSamples_length_le (d : String) : (enhancedSamples d).length ≤ 1500 := by
  unfold enhancedSamples jsSubstring1
  rw [strLen_append, strLen_append]
  have e1 := jsSubstring2_length_le d 0 500
  have e2 := jsSubstring2_length_le d 1000 1500
  have e3 := jsSubstring2_length_le d ((d.length : Int) - 500) (d.length : Int)
  simp only [clampIdx_eq] at e1 e2 e3
  omega

theorem hash_length_le (d : String) : (getEnhancedCanvasFingerprintHash d).length ≤ 6 :=
  toBase36_length_le _ (jsHashFold_natAbs_le _)

theorem jsSubstring2_of_short (s : String) (h : s.length ≤ 6) : jsSubstring2 s 0 6 = s := by
  have h0 : clampIdx s.length 0 = 0 := by rw [clampIdx_eq]; omega
  have h6 : clampIdx s.length 6 = s.length := by rw [clampIdx_eq]; omega
  unfold jsSubstring2
  rw [h0, h6, Nat.min_eq_left (Nat.zero_le _), Nat.max_eq_right (Nat.zero_le _)]
  simp only [List.drop_zero, Nat.sub_zero]
  conv_lhs => rw [show s.length = s.data.length from rfl]
  rw [List.take_length]

/-! ### Claims C1, C4, C7 -/

/-- C4: the enhanced canvas hash samples three fixed windows of the
encoded pixel string (start, middle, end; at most 1500 characters, not
the whole string), folds each character with
hash = (hash shl 5) - hash + byte coerced to 32 bits -- which equals
hash*31 + byte modulo 2^32 -- takes the absolute value, base-36 encodes
it, and the result has (is truncated to) at most 6 characters. -/
theorem canvas_hash_algorithm :
    (∀ (h : Int) (c : Nat), jsHashStep h c = toInt32 (31 * h + c))
    ∧ (∀ d : String, enhancedSamples d =
        jsSubstring2 d 0 500 ++ jsSubstring2 d 1000 1500 ++
          jsSubstring1 d ((d.length : Int) - 500))
    ∧ (∀ d : String, (enhancedSamples d).length ≤ 1500)
    ∧ (∀ d : String, getEnhancedCanvasFingerprintHash d =
        toBase36 (jsHashFold (enhancedSamples d).data).natAbs)
    ∧ (∀ d : String, (getEnhancedCanvasFingerprintHash d).length ≤ 6)
    ∧ (∀ d : String, jsSubstring2 (getEnhancedCanvasFingerprintHash d) 0 6 =
        getEnhancedCanvasFingerprintHash d) := by
  refine ⟨?_, fun _ => rfl, enhancedSamples_length_le, fun _ => rfl, hash_length_le, ?_⟩
  · intro h c
    unfold jsHashStep toInt32
    omega
  · intro d
    exact jsSubstring2_of_short _ (hash_length_le d)

/-- C1 (amended): the renderer never consults any persisted store --
its result is a pure function of the canvas outcome alone, so repeated
invocations on identical pixel data return identical values, and the
value returned for a data URL is exactly the computed hash, with no
random or timestamp suffix appended and nothing persisted. -/
theorem canvas_renderer_ignores_store :
    (∀ (st st2 : Option String) (o : CanvasOutcome),
      rendererWithIdentityStore st o = rendererWithIdentityStore st2 o)
    ∧ (∀ (st : Option String) (d : String),
      rendererWithIdentityStore st (CanvasOutcome.ok d) = getEnhancedCanvasFingerprintHash d) :=
  ⟨fun _ _ _ => rfl, fun _ _ => rfl⟩

set_option maxRecDepth 100000 in
/-- C1 counterexample: with a fingerprint "stored-fp" persisted for the
origin, the renderer does not return it -- it returns the freshly
computed six-character hash of the pixel data, identically to an
invocation with an empty store. -/
theorem canvas_store_short_circuit_counterexample :
    (rendererWithIdentityStore (some "stored-fp")
        (CanvasOutcome.ok "data:image/png;base64,AAAA") == "stored-fp") = false
    ∧ rendererWithIdentityStore (some "stored-fp")
        (CanvasOutcome.ok "data:image/png;base64,AAAA") =
      rendererWithIdentityStore none (CanvasOutcome.ok "data:image/png;base64,AAAA")
    ∧ rendererWithIdentityStore (some "stored-fp")
        (CanvasOutcome.ok "data:image/png;base64,AAAA") = "s42jle" :=
  ⟨by decide, rfl, by decide⟩

/-- C7 (amended): every rendering failure is caught; the fallback is
"canvas-error-" plus the first ten characters of the exception message
in the enhanced variant and the constant "canvas-error" in the base
variant, and the result never depends on the user agent; totality of
the functions is the absence of a propagated exception. -/
theorem canvas_failure_fallback :
    (∀ (ua m : String), rendererWithUserAgent ua (CanvasOutcome.blocked m) =
      "canvas-error-" ++ jsSubstring2 m 0 10)
    ∧ (∀ m : String, getCanvasFingerprintBase (CanvasOutcome.blocked m) = "canvas-error")
    ∧ (∀ (ua ua2 : String) (o : CanvasOutcome),
      rendererWithUserAgent ua o = rendererWithUserAgent ua2 o) :=
  ⟨fun _ _ => rfl, fun _ => rfl, fun _ _ _ => rfl⟩

/-- C7 counterexample: two failures under the same user agent (hence
the same user-agent length) produce different fallback values, so the
fallback is not derived from the user-agent length; it carries the
exception message instead. -/
theorem canvas_fallback_not_ua_derived_counterexample :
    (rendererWithUserAgent "Mozilla/5.0"
        (CanvasOutcome.blocked "SecurityError: The operation is insecure.") ==
      rendererWithUserAgent "Mozilla/5.0" (CanvasOutcome.blocked "NS_ERROR_FAILURE")) = false
    ∧ rendererWithUserAgent "Mozilla/5.0"
        (CanvasOutcome.blocked "SecurityError: The operation is insecure.") =
      "canvas-error-SecurityEr" :=
  ⟨by decide, by decide⟩

/-! ### Claims C3, C5, C8, C9 -/

/-- C3: the code registers a fresh delegated click listener on every
init run, so after the visibilitychange handler has re-entered init
once (two runs in total), a single click on a span nested inside
button[name="add"] fires two add-to-cart reports, not one; with a
single init run it fires exactly one report, a click with no matching
ancestor fires none, and each report carries event "add_to_cart". -/
theorem watcher_duplicate_listener_reports :
    addToCartReportsOnClick (initStep (initStep initialTrackerState)) nestedAddClickPath = 2
    ∧ addToCartReportsOnClick (initStep initialTrackerState) nestedAddClickPath = 1
    ∧ addToCartReportsOnClick (initStep (initStep initialTrackerState)) plainClickPath = 0
    ∧ addToCartReportsOnClick (initStep initialTrackerState) plainClickPath = 0
    ∧ trackAddToCartPayload.event = some "add_to_cart"
    ∧ (initStep (initStep initialTrackerState)).clickListeners = 2 := by
  decide

/-- C8: every invocation of sendToServer and of trackAddToCart issues
exactly one POST; any transport failure (network rejection, non-2xx
response, or an unparsable response body) is absorbed by the catch
handler and logged, success is logged, there is no retry (the POST
count is one regardless of the outcome), and nothing is raised to the
caller or the hosting page. -/
theorem reporter_fire_and_forget : ∀ o : FetchOutcome,
    (sendToServerTrace o).postsSent = 1
    ∧ (trackAddToCartTrace o).postsSent = 1
    ∧ (sendToServerTrace o).raisedToCaller = false
    ∧ (trackAddToCartTrace o).raisedToCaller = false
    ∧ (sendToServerTrace o).loggedError = fetchFailed o
    ∧ (trackAddToCartTrace o).loggedError = fetchFailed o
    ∧ (sendToServerTrace o).loggedSuccess = !fetchFailed o := by
  intro o
  rcases o with m | ⟨ok, j⟩
  · exact ⟨rfl, rfl, rfl, rfl, rfl, rfl, rfl⟩
  · cases ok <;> cases j <;> exact ⟨rfl, rfl, rfl, rfl, rfl, rfl, rfl⟩

set_option maxRecDepth 100000 in
/-- C9: on the reference Android user agent the OS detector answers
Android 10 (mobile), although the Linux signature is also present --
the Android test precedes it in the cascade -- and the device-model
detector answers SM-G973F, delivered by the Samsung vendor regex,
which is the first vendor pattern tried. -/
theorem android_reference_detection :
    getOperatingSystem androidRefUA false = ⟨"Android", "10", true⟩
    ∧ containsCS androidRefUA "Linux" = true
    ∧ (scanOpt samsungAt androidRefUA.data).map String.mk = some "SM-G973F"
    ∧ getDeviceModel androidRefUA (some "Linux armv8l") = "SM-G973F"
    ∧ (getBrowserInfo androidRefUA false).name = "Chrome" := by
  decide

/-- C5: determinePageType is the ordered cascade product, checkout,
cart, home, collection/search, other over the lower-cased pathname and
the two DOM probes, with the first matching predicate winning; in
particular any non-product path containing "/checkout" classifies as
checkout even when it also contains "/cart". -/
theorem page_classifier_cascade : ∀ (pathname : String) (pd pid : Bool),
    (productPred (jsToLower pathname) pd pid = true →
      determinePageType pathname pd pid = "product")
    ∧ (productPred (jsToLower pathname) pd pid = false →
        checkoutPred (jsToLower pathname) = true →
      determinePageType pathname pd pid = "checkout")
    ∧ (productPred (jsToLower pathname) pd pid = false →
        checkoutPred (jsToLower pathname) = false →
        cartPred (jsToLower pathname) = true →
      determinePageType pathname pd pid = "cart")
    ∧ (productPred (jsToLower pathname) pd pid = false →
        checkoutPred (jsToLower pathname) = false →
        cartPred (jsToLower pathname) = false →
        homePred (jsToLower pathname) = true →
      determinePageType pathname pd pid = "home")
    ∧ (productPred (jsToLower pathname) pd pid = false →
        checkoutPred (jsToLower pathname) = false →
        cartPred (jsToLower pathname) = false →
        homePred (jsToLower pathname) = false →
        collectionPred (jsToLower pathname) = true →
      determinePageType pathname pd pid = "collection_or_search")
    ∧ (productPred (jsToLower pathname) pd pid = false →
        checkoutPred (jsToLower pathname) = false →
        cartPred (jsToLower pathname) = false →
        homePred (jsToLower pathname) = false →
        collectionPred (jsToLower pathname) = false →
      determinePageType pathname pd pid = "other")
    ∧ (productPred (jsToLower pathname) pd pid = false →
        jsIncludes (jsToLower pathname) "/checkout" = true →
      determinePageType pathname pd pid = "checkout") := by
  intro pathname pd pid
  refine ⟨?_, ?_, ?_, ?_, ?_, ?_, ?_⟩
  · intro h1
    simp [determinePageType, h1]
  · intro h1 h2
    simp [determinePageType, h1, h2]
  · intro h1 h2 h3
    simp [determinePageType, h1, h2, h3]
  · intro h1 h2 h3 h4
    simp [determinePageType, h1, h2, h3, h4]
  · intro h1 h2 h3 h4 h5
    simp [determinePageType, h1, h2, h3, h4, h5]
  · intro h1 h2 h3 h4 h5
    simp [determinePageType, h1, h2, h3, h4, h5]
  · intro h1 h2
    have h2' : checkoutPred (jsToLower pathname) = true := by
      simp [checkoutPred, h2]
    simp [determinePageType, h1, h2']

/-- C5 witness: the path /checkout/cart-recovery contains both the
checkout and the cart substrings and classifies as checkout. -/
theorem page_classifier_cascade_witness :
    determinePageType "/checkout/cart-recovery" false false = "checkout"
    ∧ jsIncludes (jsToLower "/checkout/cart-recovery") "/cart" = true :=
  ⟨(page_classifier_cascade "/checkout/cart-recovery" false false).2.1
      (by decide) (by decide),
   by decide⟩

/-! ### Case-folding and version-shape lemmas for the browser detector -/

theorem dropCS_to_dropCI : ∀ (pat s r : List Char), dropCS pat s = some r → dropCI pat s = some r := by
  intro pat
  induction pat with
  | nil => intro s r h; simpa [dropCS, dropCI] using h
  | cons p ps ih =>
    intro s r h
    cases s with
    | nil => simp [dropCS] at h
    | cons c cs =>
      by_cases hpc : p == c
      · have hpc' : p = c := by exact beq_iff_eq.mp hpc
        subst hpc'
        simp only [dropCS, beq_self_eq_true, if_true] at h
        simp only [dropCI, beq_self_eq_true, if_true]
        exact ih cs r h
      · simp [dropCS, hpc] at h

theorem listContainsCS_to_CI : ∀ (l pat : List Char),
    listContainsCS pat l = true → listContainsCI pat l = true := by
  intro l
  induction l with
  | nil => intro pat h; simpa [listContainsCS, listContainsCI] using h
  | cons c cs ih =>
    intro pat h
    simp only [listContainsCS, Bool.or_eq_true] at h
    simp only [listContainsCI, Bool.or_eq_true]
    rcases h with h | h
    · left
      rcases Option.isSome_iff_exists.mp h with ⟨r, hr⟩
      rw [dropCS_to_dropCI _ _ _ hr]
      rfl
    · right
      exact ih pat h

theorem containsCS_to_CI (s pat : String) (h : containsCS s pat = true) :
    containsCI s pat = true :=
  listContainsCS_to_CI _ _ h

theorem containsCS_false_of_CI (s pat : String) (h : containsCI s pat = false) :
    containsCS s pat = false := by
  cases hcs : containsCS s pat
  · rfl
  · rw [containsCS_to_CI s pat hcs] at h
    exact absurd h (by simp)

theorem takeDigits_fst_digits : ∀ l : List Char, digitsOnly (takeDigits l).1 := by
  intro l
  induction l with
  | nil => intro c hc; simp [takeDigits] at hc
  | cons a as ih =>
    intro c hc
    by_cases h : a.isDigit
    · simp only [takeDigits, h, if_true, List.mem_cons] at hc
      rcases hc with rfl | hc
      · exact h
      · exact ih c hc
    · simp [takeDigits, h] at hc

theorem majorMinorAt_shape : ∀ (s v : List Char), majorMinorAt s = some v →
    ∃ a b : List Char, a ≠ [] ∧ digitsOnly a ∧
      (v = a ∨ (b ≠ [] ∧ digitsOnly b ∧ v = a ++ '.' :: b)) := by
  intro s v h
  unfold majorMinorAt at h
  split at h
  · exact absurd h (by simp)
  · rename_i ds rest hne heq
    have hds : digitsOnly ds := by
      have hfst : ds = (takeDigits s).1 := by rw [heq]
      rw [hfst]
      exact takeDigits_fst_digits s
    have hdsne : ds ≠ [] := fun hc => hne hc
    split at h
    · rename_i r2
      split at h
      · refine ⟨ds, [], hdsne, hds, Or.inl ?_⟩
        exact (Option.some_inj.mp h).symm
      · rename_i ds2 rest2 hne3 heq3
        refine ⟨ds, ds2, hdsne, hds, Or.inr ⟨fun hc => hne3 hc, ?_, ?_⟩⟩
        · have hfst2 : ds2 = (takeDigits r2).1 := by rw [heq3]
          rw [hfst2]
          exact takeDigits_fst_digits r2
        · exact (Option.some_inj.mp h).symm
    · refine ⟨ds, [], hdsne, hds, Or.inl ?_⟩
      exact (Option.some_inj.mp h).symm

theorem tryTokensVer_shape : ∀ (toks : List (List Char)) (s v : List Char),
    tryTokensVer toks s = some v →
    ∃ a b : List Char, a ≠ [] ∧ digitsOnly a ∧
      (v = a ∨ (b ≠ [] ∧ digitsOnly b ∧ v = a ++ '.' :: b)) := by
  intro toks
  induction toks with
  | nil => intro s v h; simp [tryTokensVer] at h
  | cons t ts ih =>
    intro s v h
    unfold tryTokensVer at h
    split at h
    · rename_i rest heq
      split at h
      · rename_i v2 heq2
        have hv : v2 = v := Option.some_inj.mp h
        subst hv
        exact majorMinorAt_shape rest _ heq2
      · exact ih s v h
    · exact ih s v h

theorem scanVer_shape : ∀ (s : List Char) (toks : List (List Char)) (v : List Char),
    scanVer toks s = some v →
    ∃ a b : List Char, a ≠ [] ∧ digitsOnly a ∧
      (v = a ∨ (b ≠ [] ∧ digitsOnly b ∧ v = a ++ '.' :: b)) := by
  intro s
  induction s with
  | nil => intro toks v h; simp [scanVer] at h
  | cons c cs ih =>
    intro toks v h
    unfold scanVer at h
    split at h
    · rename_i v2 heq
      have hv : v2 = v := Option.some_inj.mp h
      subst hv
      exact tryTokensVer_shape toks (c :: cs) _ heq
    · exact ih toks v h

theorem verAfter_shape (toks : List String) (ua : String) :
    majorMinorShape (verAfter toks ua) := by
  unfold verAfter
  split
  · rename_i v heq
    right
    rcases scanVer_shape ua.data (toks.map String.data) v heq with ⟨a, b, h1, h2, h3⟩
    exact ⟨a, b, h1, h2, h3⟩
  · left
    rfl

theorem getBrowserInfo_version_shape (ua : String) (ms : Bool) :
    majorMinorShape (getBrowserInfo ua ms).version := by
  unfold getBrowserInfo
  repeat' split
  all_goals first
    | exact verAfter_shape _ _
    | exact Or.inl rfl

/-- C6: browser detection order.  iOS takes priority: when the iOS
guard holds, the reported name comes from the CriOS/FxiOS/EdgiOS
wrapper tokens (Safari otherwise) while actualBrowser records the
wrapping application, including Opera-for-iOS, which is reported as
Safari but recorded as Opera.  Off iOS the cascade is Chrome, Firefox,
Edge, Safari, Internet Explorer, Opera, first match wins, and the
negative exclusions keep Chromium forks and Opera (which carries the
Chrome token) out of the Chrome branch.  Every extracted version has
at most a major.minor digit shape. -/
theorem browser_detection_order : ∀ (ua : String) (ms : Bool),
    (iosActive ua ms = true → containsCS ua "CriOS" = true →
      (getBrowserInfo ua ms).name = "Chrome" ∧
        (getBrowserInfo ua ms).actualBrowser = "Chrome")
    ∧ (iosActive ua ms = true → containsCS ua "CriOS" = false →
        containsCS ua "FxiOS" = true → containsCI ua "CriOS" = false →
      (getBrowserInfo ua ms).name = "Firefox" ∧
        (getBrowserInfo ua ms).actualBrowser = "Firefox")
    ∧ (iosActive ua ms = true → containsCS ua "CriOS" = false →
        containsCS ua "FxiOS" = false → containsCS ua "EdgiOS" = true →
      (getBrowserInfo ua ms).name = "Edge")
    ∧ (iosActive ua ms = true → containsCS ua "CriOS" = false →
        containsCS ua "FxiOS" = false → containsCS ua "EdgiOS" = false →
      (getBrowserInfo ua ms).name = "Safari")
    ∧ (iosActive ua ms = true → containsCI ua "CriOS" = false →
        containsCI ua "FxiOS" = false → containsCI ua "EdgiOS" = false →
        containsCI ua "OPiOS" = true →
      (getBrowserInfo ua ms).name = "Safari" ∧
        (getBrowserInfo ua ms).actualBrowser = "Opera")
    ∧ (iosActive ua ms = false → chromeUA ua = true →
      (getBrowserInfo ua ms).name = "Chrome")
    ∧ (iosActive ua ms = false → chromeUA ua = false → firefoxUA ua = true →
      (getBrowserInfo ua ms).name = "Firefox")
    ∧ (iosActive ua ms = false → chromeUA ua = false → firefoxUA ua = false →
        edgeUA ua = true → (getBrowserInfo ua ms).name = "Edge")
    ∧ (iosActive ua ms = false → chromeUA ua = false → firefoxUA ua = false →
        edgeUA ua = false → safariUA ua = true →
      (getBrowserInfo ua ms).name = "Safari")
    ∧ (iosActive ua ms = false → chromeUA ua = false → firefoxUA ua = false →
        edgeUA ua = false → safariUA ua = false → ieUA ua = true →
      (getBrowserInfo ua ms).name = "Internet Explorer")
    ∧ (iosActive ua ms = false → chromeUA ua = false → firefoxUA ua = false →
        edgeUA ua = false → safariUA ua = false → ieUA ua = false →
        operaUA ua = true → (getBrowserInfo ua ms).name = "Opera")
    ∧ (iosActive ua ms = false → containsCI ua "OPR" = true →
      ¬(getBrowserInfo ua ms).name = "Chrome")
    ∧ (iosActive ua ms = false → containsCI ua "Chromium" = true →
      ¬(getBrowserInfo ua ms).name = "Chrome")
    ∧ majorMinorShape (getBrowserInfo ua ms).version := by
  intro ua ms
  refine ⟨?_, ?_, ?_, ?_, ?_, ?_, ?_, ?_, ?_, ?_, ?_, ?_, ?_,
    getBrowserInfo_version_shape ua ms⟩
  · intro h1 h2
    have h3 : containsCI ua "CriOS" = true := containsCS_to_CI ua _ h2
    constructor <;> simp [getBrowserInfo, actualBrowserOf, h1, h2, h3]
  · intro h1 h2 h3 h4
    have h5 : containsCI ua "FxiOS" = true := containsCS_to_CI ua _ h3
    constructor <;> simp [getBrowserInfo, actualBrowserOf, h1, h2, h3, h4, h5]
  · intro h1 h2 h3 h4
    simp [getBrowserInfo, h1, h2, h3, h4]
  · intro h1 h2 h3 h4
    simp [getBrowserInfo, h1, h2, h3, h4]
  · intro h1 h2 h3 h4 h5
    have c2 : containsCS ua "CriOS" = false := containsCS_false_of_CI ua _ h2
    have c3 : containsCS ua "FxiOS" = false := containsCS_false_of_CI ua _ h3
    have c4 : containsCS ua "EdgiOS" = false := containsCS_false_of_CI ua _ h4
    constructor <;>
      simp [getBrowserInfo, actualBrowserOf, h1, h2, h3, h4, h5, c2, c3, c4]
  · intro h1 h2
    simp [getBrowserInfo, h1, h2]
  · intro h1 h2 h3
    simp [getBrowserInfo, h1, h2, h3]
  · intro h1 h2 h3 h4
    simp [getBrowserInfo, h1, h2, h3, h4]
  · intro h1 h2 h3 h4 h5
    simp [getBrowserInfo, h1, h2, h3, h4, h5]
  · intro h1 h2 h3 h4 h5 h6
    simp [getBrowserInfo, h1, h2, h3, h4, h5, h6]
  · intro h1 h2 h3 h4 h5 h6 h7
    simp [getBrowserInfo, h1, h2, h3, h4, h5, h6, h7]
  · intro h1 h2
    have hc : chromeUA ua = false := by
      simp [chromeUA, chromeExcl, h2]
    have hs : safariUA ua = false := by
      simp [safariUA, h2]
    unfold getBrowserInfo
    simp only [h1, hc, hs, if_false, Bool.false_eq_true]
    repeat' split
    all_goals simp
  · intro h1 h2
    have hc : chromeUA ua = false := by
      simp [chromeUA, chromeExcl, h2]
    have hs : safariUA ua = false := by
      simp [safariUA, h2]
    unfold getBrowserInfo
    simp only [h1, hc, hs, if_false, Bool.false_eq_true]
    repeat' split
    all_goals simp

set_option maxRecDepth 100000 in
/-- C6 witness: Chrome for iOS is reported and recorded as Chrome, and
a desktop Opera user agent carrying the Chrome token is not classified
as Chrome (it is classified as Opera). -/
theorem browser_detection_order_witness :
    ((getBrowserInfo uaCriOSRef false).name = "Chrome" ∧
      (getBrowserInfo uaCriOSRef false).actualBrowser = "Chrome")
    ∧ ¬(getBrowserInfo uaOperaRef false).name = "Chrome"
    ∧ (getBrowserInfo uaOperaRef false).name = "Opera" :=
  ⟨(browser_detection_order uaCriOSRef false).1 (by decide) (by decide),
   (browser_detection_order uaOperaRef false).2.2.2.2.2.2.2.2.2.2.2.1
      (by decide) (by decide),
   (browser_detection_order uaOperaRef false).2.2.2.2.2.2.2.2.2.2.1
      (by decide) (by decide) (by decide) (by decide) (by decide) (by decide) (by decide)⟩

/-- C2: the extended composer joins exactly these nine segments with
the single delimiter "|", in this fixed order: OS name, the
(iOS-engine-disambiguated) browser identifier, the browser major
version only, width x height, "{cores}cores-{memory}GB", the canvas
hash, the device model, the pixel ratio with exactly three decimal
places, and the GPU renderer truncated to at most 20 characters; the
base variant joins the first six-segment subset.  When no segment
contains the delimiter, the output has exactly eight delimiters, hence
exactly nine pipe-delimited segments (six in the base variant). -/
theorem fingerprint_composition (d : VisitorData) :
    formatVisitorString d = joinPipe (visitorSegments d)
    ∧ visitorSegments d =
        [d.os.name, browserIdent d, majorVersion d.browser.version,
         toString d.screen.width ++ "x" ++ toString d.screen.height,
         hardwareSeg d.hardware, d.identifiers.canvasFingerprint, d.deviceModel,
         toFixed3 (jsOr1 d.screen.pixelScale), gpuSeg d.identifiers.webGLRenderer]
    ∧ (visitorSegments d).length = 9
    ∧ (visitorSegmentsBase d).length = 6
    ∧ (∃ w f : String, toFixed3 (jsOr1 d.screen.pixelScale) = w ++ "." ++ f ∧ f.length = 3)
    ∧ (gpuSeg d.identifiers.webGLRenderer).length ≤ 20
    ∧ (d.os.name = "iOS" → d.browser.actualBrowser ≠ "Unknown" →
        browserIdent d = d.browser.actualBrowser ++ "(WebKit)")
    ∧ ((∀ s ∈ visitorSegments d, s.data.count '|' = 0) →
        (formatVisitorString d).data.count '|' = 8)
    ∧ ((∀ s ∈ visitorSegmentsBase d, s.data.count '|' = 0) →
        (formatVisitorStringBase d).data.count '|' = 5) := by
  refine ⟨rfl, rfl, rfl, rfl, ⟨_, _, rfl, rfl⟩, ?_, ?_, ?_, ?_⟩
  · unfold gpuSeg
    split
    · decide
    · show (List.take 20 _).length ≤ 20
      simp [List.length_take]
  · intro h1 h2
    have hb1 : (d.os.name == "iOS") = true := by simp [h1]
    have hb2 : (d.browser.actualBrowser == "Unknown") = false := by simp [h2]
    simp [browserIdent, hb1, hb2]
  · intro h
    simp only [visitorSegments, List.mem_cons, List.not_mem_nil, or_false,
      forall_eq_or_imp, forall_eq] at h
    obtain ⟨h1, h2, h3, h4, h5, h6, h7, h8, h9⟩ := h
    simp only [String.data_append, List.count_append] at h4
    have hp : (("|" : String).data.count '|') = 1 := by decide
    show (joinPipe (visitorSegments d)).data.count '|' = 8
    simp only [visitorSegments, joinPipe, String.data_append, List.count_append,
      h1, h2, h3, h5, h6, h7, h8, h9, hp]
    omega
  · intro h
    simp only [visitorSegmentsBase, List.mem_cons, List.not_mem_nil, or_false,
      forall_eq_or_imp, forall_eq] at h
    obtain ⟨h1, h2, h3, h4, h5, h6⟩ := h
    simp only [String.data_append, List.count_append] at h4
    have hp : (("|" : String).data.count '|') = 1 := by decide
    show (joinPipe (visitorSegmentsBase d)).data.count '|' = 5
    simp only [visitorSegmentsBase, joinPipe, String.data_append, List.count_append,
      h1, h2, h3, h5, h6, hp]
    omega

set_option maxRecDepth 100000 in
/-- C2 witness: on a concrete Android bundle the composed string has
exactly eight delimiters (nine segments), and on a concrete iOS bundle
the browser identifier is engine-disambiguated to "Chrome(WebKit)". -/
theorem fingerprint_composition_witness :
    (formatVisitorString exVisitorData).data.count '|' = 8
    ∧ browserIdent exIOSVisitorData = "Chrome(WebKit)"
    ∧ formatVisitorString exVisitorData =
        "Android|Chrome|90|360x800|8cores-4GB|abc123|SM-G973F|2.000|Adreno (TM) 640 extr" :=
  ⟨(fingerprint_composition exVisitorData).2.2.2.2.2.2.2.1 (by decide),
   (fingerprint_composition exIOSVisitorData).2.2.2.2.2.2.1 rfl (by decide),
   by decide⟩

/-- C10: when navigator.hardwareConcurrency or navigator.deviceMemory
is absent or reports 0, getHardwareInfo substitutes "Unknown" for that
field; the hardware segment keeps the "{cores}cores-{memory}GB" shape
(in the worst case "Unknowncores-UnknownGB"), it is the fifth segment of
the composed fingerprint, and composition is total over every possible
hardware reading. -/
theorem hardware_unknown_fallback : ∀ (hc dm mtp : Option ℚ) (plat : Option String),
    ((hc = none ∨ hc = some 0) →
      (getHardwareInfo ⟨hc, dm, mtp, plat⟩).cores = HWVal.unknownV)
    ∧ ((dm = none ∨ dm = some 0) →
      (getHardwareInfo ⟨hc, dm, mtp, plat⟩).memory = HWVal.unknownV)
    ∧ hardwareSeg (getHardwareInfo ⟨hc, dm, mtp, plat⟩) =
        hwValStr (jsOrUnknown hc) ++ "cores-" ++ hwValStr (jsOrUnknown dm) ++ "GB"
    ∧ hardwareSeg (getHardwareInfo ⟨none, none, mtp, plat⟩) = "Unknowncores-UnknownGB"
    ∧ (∀ dta : VisitorData, (visitorSegments dta)[4]? = some (hardwareSeg dta.hardware)) := by
  intro hc dm mtp plat
  refine ⟨?_, ?_, rfl, rfl, fun dta => rfl⟩
  · rintro (rfl | rfl)
    · rfl
    · simp [getHardwareInfo, jsOrUnknown]
  · rintro (rfl | rfl)
    · rfl
    · simp [getHardwareInfo, jsOrUnknown]

/-- C10 witness: both fields degrade to "Unknown" at concrete absent
or zero readings. -/
theorem hardware_unknown_fallback_witness :
    (getHardwareInfo ⟨none, some 8, none, none⟩).cores = HWVal.unknownV
    ∧ (getHardwareInfo ⟨some 8, some 0, none, none⟩).memory = HWVal.unknownV :=
  ⟨(hardware_unknown_fallback none (some 8) none none).1 (Or.inl rfl),
   (hardware_unknown_fallback (some 8) (some 0) none none).2.1 (Or.inr rfl)⟩
